import Mathlib

/-!
Shallow embedding of the per-frame rendering pipeline of `src/engine/engine.rs`
(repository `edwin0cheng/unigame`), together with proofs about the frozen
specification claims.  `f32` scalars are idealized as `ℚ`; `Rc`/`Arc` pointer
identity is modelled by `Nat` identity tokens, and `Weak` references by a stored
token whose liveness is looked up in an explicit environment.
-/

namespace Engine

/-- 3-component vector (nalgebra `Vector3<f32>`, idealized over `ℚ`). -/
structure Vec3 where
  x : ℚ
  y : ℚ
  z : ℚ
deriving DecidableEq, Repr

/-- Componentwise subtraction of vectors. -/
def Vec3.sub (a b : Vec3) : Vec3 :=
  ⟨a.x - b.x, a.y - b.y, a.z - b.z⟩

/-- Dot product. -/
def Vec3.dot (a b : Vec3) : ℚ :=
  a.x * b.x + a.y * b.y + a.z * b.z

/-- `norm_squared` of nalgebra — squared Euclidean norm. -/
def Vec3.norm_squared (a : Vec3) : ℚ :=
  a.dot a

/-- 4×4 matrix (nalgebra `Matrix4<f32>`, idealized over `ℚ`). -/
abbrev Mat4 := Matrix (Fin 4) (Fin 4) ℚ

/-- `get_max_scale` (engine.rs line 166): `s[0].max(s[1]).max(s[2])`. -/
def get_max_scale (s : Vec3) : ℚ :=
  max (max s.x s.y) s.z

/-- nalgebra `Matrix4::transform_point`: homogeneous transform of a point with
perspective division by the resulting `w` component. -/
def transform_point (m : Mat4) (p : Vec3) : Vec3 :=
  let w := m 3 0 * p.x + m 3 1 * p.y + m 3 2 * p.z + m 3 3
  ⟨(m 0 0 * p.x + m 0 1 * p.y + m 0 2 * p.z + m 0 3) / w,
   (m 1 0 * p.x + m 1 1 * p.y + m 1 2 * p.z + m 1 3) / w,
   (m 2 0 * p.x + m 2 1 * p.y + m 2 2 * p.z + m 2 3) / w⟩

/-- nalgebra `Matrix4::try_inverse`: succeeds exactly on invertible matrices.
The inverse is computed through the adjugate so the definition stays
executable. -/
def try_inverse (m : Mat4) : Option Mat4 :=
  if m.det = 0 then none else some ((m.det)⁻¹ • m.adjugate)

/-- One frustum plane, as a normal and an offset; the signed distance of a point
`p` from the plane is `normal ⬝ p + d`. -/
structure Plane where
  normal : Vec3
  d : ℚ
deriving DecidableEq, Repr

/-- Camera view frustum (engine::render::Frustum, outside src/). -/
structure Frustum where
  planes : List Plane
deriving DecidableEq, Repr

/-- Modelled from the spec: `Frustum::collide_sphere` (engine::render is not
under src/) — a sphere-vs-frustum test that returns `false` exactly when the
sphere lies entirely outside some frustum plane, and `true` otherwise
(conservative, spec §4.2). -/
def Frustum.collide_sphere (f : Frustum) (center : Vec3) (r : ℚ) : Bool :=
  f.planes.all fun pl => decide (-r ≤ pl.normal.dot center + pl.d)

/-- Modelled from the spec: `RenderQueue` (engine::render is not under src/) —
the fixed enumeration whose derived total order follows declaration order:
Opaque < Skybox < Transparent < UI (spec §3). -/
inductive RenderQueue
  | Opaque
  | Skybox
  | Transparent
  | UI
deriving DecidableEq, Repr, Fintype

/-- Numeric key of a queue kind, realizing the derived `Ord` of the Rust enum. -/
def RenderQueue.toNat : RenderQueue → Nat
  | .Opaque => 0
  | .Skybox => 1
  | .Transparent => 2
  | .UI => 3

/-- Modelled from the spec: depth-test policies (engine::render is not under
src/); the engine code itself only ever names `LessEqual`. -/
inductive DepthTest
  | Never
  | Less
  | Equal
  | LessEqual
  | Greater
  | NotEqual
  | GreaterEqual
  | Always
deriving DecidableEq, Repr

/-- Modelled from the spec: `MaterialState` (engine::render is not under src/)
— a partial GPU state override; `none` means "no override" (spec §3). -/
structure MaterialState where
  depth_write : Option Bool := none
  depth_test : Option DepthTest := none
deriving DecidableEq, Repr

/-- Modelled from the spec: `Material` (engine::render is not under src/) —
render-queue tag, shader program, texture parameters and a partial state
override.  `id` is the `Rc<Material>` pointer identity; `program` and the
entries of `textures` are likewise identity tokens. -/
structure Material where
  id : Nat
  render_queue : RenderQueue
  program : Nat
  textures : List Nat
  states : MaterialState
deriving DecidableEq, Repr

/-- Local-space bounding sphere of a mesh buffer; only the radius `r` is read
by the engine code (the center used for culling is the transformed origin). -/
structure Bounds where
  r : ℚ
deriving DecidableEq, Repr

/-- Drawable geometry buffer: identity token plus the optional local bounding
sphere returned by `buffer.bounds()`. -/
structure MeshBuffer where
  id : Nat
  bounds : Option Bounds
deriving DecidableEq, Repr

/-- `MeshSurface` — immutable pairing of a geometry buffer and a material. -/
structure MeshSurface where
  buffer : MeshBuffer
  material : Material
deriving DecidableEq, Repr

/-- `Mesh` component — a list of surfaces. -/
structure Mesh where
  surfaces : List MeshSurface
deriving DecidableEq, Repr

/-- Modelled from the spec: directional-light data (engine::render is not under
src/).  `{}` (all defaults) is the downward-angled default light synthesized
when the scene has no directional light (spec §4.5 step 4). -/
structure Directional where
  direction : Vec3 := ⟨1 / 2, -1, 1 / 2⟩
  color : Vec3 := ⟨1, 1, 1⟩
deriving DecidableEq, Repr

/-- Modelled from the spec: point-light data (engine::render is not under
src/). -/
structure PointLight where
  position : Vec3 := ⟨0, 0, 0⟩
  color : Vec3 := ⟨1, 1, 1⟩
deriving DecidableEq, Repr

/-- `Light` — variant over directional and point lights. -/
inductive Light
  | Directional (data : Engine.Directional)
  | Point (data : PointLight)
deriving DecidableEq, Repr

/-- `true` exactly on `Light::Directional`. -/
def Light.is_directional : Light → Bool
  | .Directional _ => true
  | _ => false

/-- `true` exactly on `Light::Point`. -/
def Light.is_point : Light → Bool
  | .Point _ => true
  | _ => false

/-- The scene-graph `Transform` (engine::core, not under src/).  The fields
mirror the three observations engine.rs makes of it: `as_global_matrix()`,
`local_scale()` and `global().translation`.  `world_scale` is Modelled from the
spec: §6 says the scene graph provides a per-object world scale (the local
scale composed with all ancestor scales); it coincides with `local_scale` only
when no ancestor is scaled. -/
structure Transform where
  global_matrix : Mat4
  local_scale : Vec3
  world_scale : Vec3
  global_translation : Vec3
deriving DecidableEq

/-- `GameObject` as observed by the renderer: activity flag, transform, and the
at-most-one mesh / light component returned by `find_component`. -/
structure GameObject where
  active : Bool
  transform : Transform
  mesh : Option Mesh := none
  light : Option Light := none
deriving DecidableEq

/-- `compute_model_m` (engine.rs line 144). -/
def compute_model_m (object : GameObject) : Mat4 :=
  object.transform.global_matrix

/-- `RenderCommand` (engine.rs line 60). -/
structure RenderCommand where
  surface : MeshSurface
  model_m : Mat4
  cam_distance : ℚ
deriving DecidableEq

/-- `RenderQueueState` (engine.rs line 66): default state block plus pending
commands. -/
structure RenderQueueState where
  states : MaterialState := {}
  commands : List RenderCommand := []
deriving DecidableEq

/-- Boolean comparator: ascending squared camera distance. -/
def cam_le (a b : RenderCommand) : Bool :=
  decide (a.cam_distance ≤ b.cam_distance)

/-- Boolean comparator: descending squared camera distance. -/
def cam_ge (a b : RenderCommand) : Bool :=
  decide (b.cam_distance ≤ a.cam_distance)

/-- `RenderQueueState::sort_by_cam_distance` (engine.rs line 73): sorts by the
comparator `bdist.partial_cmp(&adist)`, i.e. into descending camera distance.
Rust `sort_unstable_by` is modelled by a deterministic merge sort. -/
def RenderQueueState.sort_by_cam_distance (q : RenderQueueState) : RenderQueueState :=
  { q with commands := q.commands.mergeSort cam_ge }

/-- `RenderQueueState::sort_by_cam_distance_reverse` (engine.rs line 82): sorts
by `adist.partial_cmp(&bdist)`, i.e. into ascending camera distance. -/
def RenderQueueState.sort_by_cam_distance_reverse (q : RenderQueueState) : RenderQueueState :=
  { q with commands := q.commands.mergeSort cam_le }

/-- `RenderQueueList` (engine.rs line 92) — a newtype over
`BTreeMap<RenderQueue, RenderQueueState>`, modelled as an association list kept
sorted by `RenderQueue.toNat`, which is exactly the order a `BTreeMap`
iterates in. -/
structure RenderQueueList where
  entries : List (RenderQueue × RenderQueueState)
deriving DecidableEq

/-- `BTreeMap::insert`: place the binding at its sorted position, replacing an
existing binding for the same key. -/
def btree_insert (k : RenderQueue) (v : RenderQueueState) :
    List (RenderQueue × RenderQueueState) → List (RenderQueue × RenderQueueState)
  | [] => [(k, v)]
  | e :: rest =>
    if k.toNat < e.1.toNat then (k, v) :: e :: rest
    else if k.toNat = e.1.toNat then (k, v) :: rest
    else e :: btree_insert k v rest

/-- `RenderQueueList::new` (engine.rs line 96): the four queue buckets with
their fixed default states. -/
def RenderQueueList.new : RenderQueueList :=
  let entries : List (RenderQueue × RenderQueueState) := []
  -- Opaque Queue
  let entries := btree_insert .Opaque {} entries
  -- Skybox Queue
  let entries := btree_insert .Skybox
    { states := { depth_write := some false, depth_test := some .LessEqual } } entries
  -- Transparent Queue
  let entries := btree_insert .Transparent
    { states := { depth_write := some false } } entries
  -- UI Queue
  let entries := btree_insert .UI {} entries
  ⟨entries⟩

/-- The key sequence of the map, in iteration order. -/
def RenderQueueList.keys (rq : RenderQueueList) : List RenderQueue :=
  rq.entries.map Prod.fst

/-- `BTreeMap::get`: the bucket stored for `k` (default bucket if absent; in
the engine the four keys are always present, so the source `unwrap` on the
lookup never fires). -/
def RenderQueueList.get (rq : RenderQueueList) (k : RenderQueue) : RenderQueueState :=
  match rq.entries.find? (fun e => e.1 == k) with
  | some e => e.2
  | none => {}

/-- `BTreeMap::get_mut` followed by an in-place update: apply `f` to the bucket
stored for `k`, leaving all other bindings unchanged. -/
def RenderQueueList.modify (rq : RenderQueueList) (k : RenderQueue)
    (f : RenderQueueState → RenderQueueState) : RenderQueueList :=
  ⟨rq.entries.map fun e => if e.1 = k then (e.1, f e.2) else e⟩

/-- `RenderQueueList::surface_count` (engine.rs line 121). -/
def RenderQueueList.surface_count (rq : RenderQueueList) : Nat :=
  rq.entries.foldl (fun n e => n + e.2.commands.length) 0

/-- The world-space bounding radius handed to the frustum test inside
`gather_render_commands` (engine.rs lines 447–448): the local bounding radius
times the maximum per-axis component of `transform.local_scale()`. -/
def culling_radius (object : GameObject) (bounds : Bounds) : ℚ :=
  bounds.r * get_max_scale object.transform.local_scale

/-- The culling decision of `gather_render_commands` (engine.rs lines 438–454):
`true` means the surface falls through to the push, `false` means `continue`.
Skybox and UI materials bypass the test; a surface without bounds is skipped
(`if bounds.is_none() continue`); otherwise the transformed origin and scaled
radius are tested against the frustum. -/
def surface_emitted (object : GameObject) (frustum : Frustum) (surface : MeshSurface) : Bool :=
  match surface.material.render_queue with
  | .Skybox | .UI => true
  | _ =>
    match surface.buffer.bounds with
    | none => false
    | some bounds =>
      let m := compute_model_m object
      let p := transform_point m ⟨0, 0, 0⟩
      frustum.collide_sphere p (culling_radius object bounds)

/-- The `RenderCommand` pushed for an emitted surface (engine.rs lines
456–465). -/
def make_command (cam_pos : Vec3) (object : GameObject) (surface : MeshSurface) : RenderCommand :=
  { surface := surface
    model_m := compute_model_m object
    cam_distance := (cam_pos.sub object.transform.global_translation).norm_squared }

/-- One iteration of the surface loop of `gather_render_commands`. -/
def gather_step (object : GameObject) (cam_pos : Vec3) (frustum : Frustum)
    (render_q : RenderQueueList) (surface : MeshSurface) : RenderQueueList :=
  if surface_emitted object frustum surface then
    render_q.modify surface.material.render_queue
      (fun q => { q with commands := q.commands ++ [make_command cam_pos object surface] })
  else render_q

/-- `gather_render_commands` (engine.rs line 421): no-op for inactive objects
or objects without a mesh component; otherwise cull and push every surface. -/
def gather_render_commands (object : GameObject) (cam_pos : Vec3) (frustum : Frustum)
    (render_q : RenderQueueList) : RenderQueueList :=
  if !object.active then render_q
  else
    match object.mesh with
    | none => render_q
    | some mesh => mesh.surfaces.foldl (gather_step object cam_pos frustum) render_q

/-- The gather loop of `render_pass_with_material` (engine.rs lines 504–510):
fold over the weak object list, skipping dead references (`none`). -/
def gather_all (objects : List (Option GameObject)) (cam_pos : Vec3) (frustum : Frustum) :
    RenderQueueList :=
  objects.foldl
    (fun q o =>
      match o with
      | none => q
      | some object => gather_render_commands object cam_pos frustum q)
    RenderQueueList.new

/-- The sort step of `render_pass_with_material` (engine.rs lines 512–522):
Opaque ascending, Transparent descending, other buckets untouched. -/
def sort_queues (render_q : RenderQueueList) : RenderQueueList :=
  let render_q := render_q.modify .Opaque RenderQueueState.sort_by_cam_distance_reverse
  render_q.modify .Transparent RenderQueueState.sort_by_cam_distance

/-- `Camera` as consumed by engine.rs: view matrix and eye position (the
projection, render target and viewport are irrelevant to the claims). -/
structure Camera where
  v : Mat4
  eye : Vec3
deriving DecidableEq

/-- Steps 5–6 of `render_pass_with_material`: gather all live objects into a
fresh `RenderQueueList::new`, then sort the Opaque and Transparent buckets; the
submission loop (engine.rs line 532) then iterates the resulting map in key
order. -/
def render_pass_queues (objects : List (Option GameObject)) (camera : Camera)
    (frustum : Frustum) : RenderQueueList :=
  sort_queues (gather_all objects camera.eye frustum)

/-- Modelled from the spec: `AssetError` (engine::asset is not under src/) —
two-tier error taxonomy: the distinguishable "not ready" signal versus every
other (hard) failure (spec §7). -/
inductive AssetError
  | NotReady
  | HardFailure (msg : String)
deriving DecidableEq, Repr

/-- Observable device calls issued during submission, recorded as a trace. -/
inductive BindEvent
  | StateCommit (depth_write : Bool) (depth_test : DepthTest)
  | ProgBind (prog : Nat)
  | TexBind (tex : Nat) (unit : Nat)
  | LightsBind (prog : Nat)
  | BufferBind (buffer : Nat)
  | CameraUniforms (prog : Nat)
  | Draw (buffer : Nat)
  | BufferUnbind (buffer : Nat)
deriving DecidableEq, Repr

/-- Modelled from the spec: the committed device state after
`apply_defaults` / `apply` (engine::render::StateCache is not under src/):
depth write on and depth test Less unless overridden. -/
structure DeviceState where
  depth_write : Bool := true
  depth_test : DepthTest := .Less
deriving DecidableEq, Repr

/-- Modelled from the spec: applying a partial `MaterialState` override —
fields that are `some` replace the current device state. -/
def DeviceState.apply (s : DeviceState) (o : MaterialState) : DeviceState :=
  { depth_write := o.depth_write.getD s.depth_write
    depth_test := o.depth_test.getD s.depth_test }

/-- Modelled from the spec: `EngineContext` (engine::context is not under src/)
— the frame-scoped binding cache (spec §4.1): weak references to the last bound
program, geometry buffer, material and light-bound program (stored as identity
tokens), the bounded FIFO of texture-unit assignments (capacity 8), the
resolved lights, and the switch counters.  Reset to empty at the start of every
frame. -/
structure EngineContext where
  prog : Option Nat := none
  last_material_bound : Option Nat := none
  last_light_bound : Option Nat := none
  last_buffer_bound : Option Nat := none
  tex_units : List (Nat × Nat) := []
  main_light : Option Light := none
  point_lights : List Light := []
  switch_prog : Nat := 0
  switch_tex : Nat := 0
  switch_mesh : Nat := 0
deriving DecidableEq, Repr

/-- The external collaborators of the submission loop: liveness of weak
references (Rc drop is owned by the scene/asset systems) and the outcome of
each fallible device/asset bind call, per resource identity. -/
structure Env where
  material_alive : Nat → Bool
  prog_alive : Nat → Bool
  tex_alive : Nat → Bool
  buffer_alive : Nat → Bool
  prog_bind : Nat → Except AssetError Unit
  tex_bind : Nat → Except AssetError Unit
  buffer_bind : Nat → Except AssetError Unit

/-- Result of a fallible binding step: the `AssetResult`, the mutated context
(mutations before a failure persist, as in the Rust code) and the device-call
trace. -/
abbrev BindResult := Except AssetError Unit × EngineContext × List BindEvent

/-- Result of a step that can hard-abort the frame: `Except.error msg` models a
Rust `panic` aborting the frame. -/
abbrev OrPanic (α : Type) := Except String α

/-- Modelled from the spec: `EngineContext::prepare_cache` for the
shader-program class (spec §4.1 ensure_bound) — if the cached weak reference
still resolves and is pointer-identical to the candidate, no-op; otherwise run
the bind closure and, on success, store the candidate as the new cached
value. -/
def prepare_cache_prog (env : Env) (ctx : EngineContext) (prog : Nat)
    (f : EngineContext → BindResult) : BindResult :=
  let hit :=
    match ctx.prog with
    | some p => env.prog_alive p && p == prog
    | none => false
  if hit then (.ok (), ctx, [])
  else
    match f ctx with
    | (.ok (), ctx₁, tr) => (.ok (), { ctx₁ with prog := some prog }, tr)
    | (.error e, ctx₁, tr) => (.error e, ctx₁, tr)

/-- Modelled from the spec: `EngineContext::prepare_cache` for the
geometry-buffer class (spec §4.1 ensure_bound), same protocol as the program
class over the buffer cache slot. -/
def prepare_cache_buffer (env : Env) (ctx : EngineContext) (buffer : Nat)
    (f : EngineContext → BindResult) : BindResult :=
  let hit :=
    match ctx.last_buffer_bound with
    | some b => env.buffer_alive b && b == buffer
    | none => false
  if hit then (.ok (), ctx, [])
  else
    match f ctx with
    | (.ok (), ctx₁, tr) => (.ok (), { ctx₁ with last_buffer_bound := some buffer }, tr)
    | (.error e, ctx₁, tr) => (.error e, ctx₁, tr)

/-- Modelled from the spec: `EngineContext::prepare_cache_tex` (spec §4.1
ensure_texture_unit) — scan for a live identical assignment and reuse its unit
with no device call; otherwise append a fresh unit while fewer than 8 are in
use, else reuse a slot whose texture was freed, else evict the FIFO front; the
chosen slot is recorded at the back after a successful bind. -/
def prepare_cache_tex (env : Env) (ctx : EngineContext) (tex : Nat)
    (f : EngineContext → Nat → BindResult) : BindResult :=
  match ctx.tex_units.find? (fun u => env.tex_alive u.2 && u.2 == tex) with
  | some _ => (.ok (), ctx, [])
  | none =>
    let slot : Nat × List (Nat × Nat) :=
      if ctx.tex_units.length < 8 then (ctx.tex_units.length, ctx.tex_units)
      else
        match ctx.tex_units.find? (fun u => !env.tex_alive u.2) with
        | some dead => (dead.1, ctx.tex_units.eraseP (fun u => u.1 == dead.1))
        | none =>
          match ctx.tex_units with
          | [] => (0, [])
          | front :: rest => (front.1, rest)
    match f ctx slot.1 with
    | (.ok (), ctx₁, tr) => (.ok (), { ctx₁ with tex_units := slot.2 ++ [(slot.1, tex)] }, tr)
    | (.error e, ctx₁, tr) => (.error e, ctx₁, tr)

/-- Modelled from the spec: the texture iteration of `Material::bind`
(engine::render is not under src/) — resolve each texture parameter of the
material in order and hand it to the supplied binder closure; the first failure
aborts the iteration and propagates. -/
def bind_textures (f : EngineContext → Nat → BindResult) :
    List Nat → EngineContext → BindResult
  | [], ctx => (.ok (), ctx, [])
  | t :: ts, ctx =>
    match f ctx t with
    | (.ok (), ctx₁, tr₁) =>
      match bind_textures f ts ctx₁ with
      | (r, ctx₂, tr₂) => (r, ctx₂, tr₁ ++ tr₂)
    | err => err

/-- `Engine::setup_light` (engine.rs line 256): unwrap the current program (a
dead or absent weak reference aborts, as `upgrade().unwrap()` does); if the
lights were last uploaded to this very program, return with no work; otherwise
record the program and upload the main directional light and the point lights
(unwrapping `ctx.main_light`). -/
def setup_light (env : Env) (ctx : EngineContext) : OrPanic (EngineContext × List BindEvent) :=
  match ctx.prog with
  | none => .error "called Option::unwrap() on a None value"
  | some prog =>
    if !env.prog_alive prog then .error "called Option::unwrap() on a None value"
    else
      let hit :=
        match ctx.last_light_bound with
        | some last => env.prog_alive last && last == prog
        | none => false
      if hit then .ok (ctx, [])
      else
        match ctx.main_light with
        | none => .error "called Option::unwrap() on a None value"
        | some _ => .ok ({ ctx with last_light_bound := some prog }, [.LightsBind prog])

/-- `Engine::setup_material` (engine.rs line 202): if the last bound material
is still alive and pointer-identical to the incoming one, return immediately
with no binding work; otherwise bind the program through the cache (counting a
program switch on an actual bind), bind every material texture through the
texture-unit cache (counting texture switches), upload lights, and record the
material as last bound. -/
def setup_material (env : Env) (ctx : EngineContext) (material : Material) :
    OrPanic BindResult :=
  let short :=
    match ctx.last_material_bound with
    | some last => env.material_alive last && last == material.id
    | none => false
  if short then .ok (.ok (), ctx, [])
  else
    match prepare_cache_prog env ctx material.program
        (fun ctx =>
          match env.prog_bind material.program with
          | .ok () =>
            (.ok (), { ctx with switch_prog := ctx.switch_prog + 1 }, [.ProgBind material.program])
          | .error e => (.error e, ctx, [])) with
    | (.error e, ctx₁, tr₁) => .ok (.error e, ctx₁, tr₁)
    | (.ok (), ctx₁, tr₁) =>
      match bind_textures
          (fun ctx tex =>
            prepare_cache_tex env ctx tex
              (fun ctx unit =>
                match env.tex_bind tex with
                | .ok () =>
                  (.ok (), { ctx with switch_tex := ctx.switch_tex + 1 }, [.TexBind tex unit])
                | .error e => (.error e, ctx, [])))
          material.textures ctx₁ with
      | (.error e, ctx₂, tr₂) => .ok (.error e, ctx₂, tr₁ ++ tr₂)
      | (.ok (), ctx₂, tr₂) =>
        match setup_light env ctx₂ with
        | .error p => .error p
        | .ok (ctx₃, tr₃) =>
          .ok (.ok (), { ctx₃ with last_material_bound := some material.id }, tr₁ ++ tr₂ ++ tr₃)

/-- `Engine::setup_camera` (engine.rs line 235): unwrap the current program and
upload the camera/model uniforms; the normal matrix is
`modelm.try_inverse().unwrap().transpose()`, so a non-invertible model matrix
aborts the frame. -/
def setup_camera (env : Env) (ctx : EngineContext) (modelm : Mat4) (_camera : Camera) :
    OrPanic (List BindEvent) :=
  match ctx.prog with
  | none => .error "called Option::unwrap() on a None value"
  | some prog =>
    if !env.prog_alive prog then .error "called Option::unwrap() on a None value"
    else
      match try_inverse modelm with
      | none => .error "called Option::unwrap() on a None value: model matrix not invertible"
      | some _ => .ok [.CameraUniforms prog]

/-- The merged device state a command is drawn under (engine.rs lines 303–306):
defaults, then the bucket state, then the material state override. -/
def merged_state (qstates : MaterialState) (mat : Material) : DeviceState :=
  (DeviceState.apply (DeviceState.apply {} qstates) mat.states)

/-- The material actually used for a command (engine.rs lines 298–301): the
frame-wide override material when present, the surface material otherwise. -/
def resolve_material (material : Option Material) (cmd : RenderCommand) : Material :=
  match material with
  | some m => m
  | none => cmd.surface.material

/-- The state-commit device call a command starts with. -/
def commit_event (qstates : MaterialState) (mat : Material) : BindEvent :=
  .StateCommit (merged_state qstates mat).depth_write (merged_state qstates mat).depth_test

/-- The geometry-buffer bind closure passed to `prepare_cache` (engine.rs lines
318–322): perform the device bind and count a mesh switch. -/
def buffer_bind_closure (env : Env) (cmd : RenderCommand) : EngineContext → BindResult :=
  fun ctx =>
    match env.buffer_bind cmd.surface.buffer.id with
    | .ok () =>
      (.ok (), { ctx with switch_mesh := ctx.switch_mesh + 1 },
        [.BufferBind cmd.surface.buffer.id])
    | .error e => (.error e, ctx, [])

/-- The command loop of `Engine::render_commands` (engine.rs lines 297–336):
per command, commit the merged state; bind the material — a NotReady error
skips the command, any other error aborts the frame; bind the geometry buffer
through the cache (counting a mesh switch) — NotReady skips the command, any
other error aborts; otherwise upload camera/model uniforms, commit, draw, and
unbind the buffer. -/
def render_commands_go (env : Env) (camera : Camera) (material : Option Material)
    (qstates : MaterialState) :
    EngineContext → List RenderCommand → OrPanic (EngineContext × List BindEvent)
  | ctx, [] => .ok (ctx, [])
  | ctx, cmd :: rest =>
    let mat := resolve_material material cmd
    let commit := commit_event qstates mat
    match setup_material env ctx mat with
    | .error p => .error p
    | .ok (.error AssetError.NotReady, ctx₁, tr₁) =>
      (render_commands_go env camera material qstates ctx₁ rest).map
        (fun r => (r.1, (commit :: tr₁) ++ r.2))
    | .ok (.error (AssetError.HardFailure _), _, _) => .error "Failed to load material"
    | .ok (.ok (), ctx₁, tr₁) =>
      match ctx₁.prog with
      | none => .error "called Option::unwrap() on a None value"
      | some prog =>
        if !env.prog_alive prog then .error "called Option::unwrap() on a None value"
        else
          match prepare_cache_buffer env ctx₁ cmd.surface.buffer.id
              (buffer_bind_closure env cmd) with
          | (.ok (), ctx₂, tr₂) =>
            match setup_camera env ctx₂ cmd.model_m camera with
            | .error p => .error p
            | .ok tr₃ =>
              (render_commands_go env camera material qstates ctx₂ rest).map
                (fun r =>
                  (r.1,
                    (commit :: (tr₁ ++ tr₂ ++ tr₃ ++
                      [.Draw cmd.surface.buffer.id, .BufferUnbind cmd.surface.buffer.id])) ++ r.2))
          | (.error AssetError.NotReady, ctx₂, tr₂) =>
            (render_commands_go env camera material qstates ctx₂ rest).map
              (fun r => (r.1, (commit :: (tr₁ ++ tr₂)) ++ r.2))
          | (.error (AssetError.HardFailure _), _, _) => .error "Failed to load mesh"

/-- `Engine::render_commands` (engine.rs line 288) over one queue bucket. -/
def render_commands (env : Env) (ctx : EngineContext) (q : RenderQueueState)
    (camera : Camera) (material : Option Material) : OrPanic (EngineContext × List BindEvent) :=
  render_commands_go env camera material q.states ctx q.commands

/-- `find_all_components::<Light>` (engine.rs lines 339–370): iterate the weak
object list in order, skipping dead references, and collect the light
component of each object that has one. -/
def scene_lights (objects : List (Option GameObject)) : List Light :=
  objects.filterMap fun o => o.bind fun obj => obj.light

/-- `Engine::find_main_light` (engine.rs line 385): the first directional light
in scene-iteration order, if any. -/
def find_main_light (objects : List (Option GameObject)) : Option Light :=
  ((scene_lights objects).filter Light.is_directional).head?

/-- `Engine::prepare_ctx` (engine.rs line 398): resolve the main light (the
first directional light, or a freshly synthesized default directional light if
none exists) and the point lights (the first 4 found, in scene order). -/
def prepare_ctx (objects : List (Option GameObject)) (ctx : EngineContext) : EngineContext :=
  { ctx with
    main_light := some ((find_main_light objects).getD (Light.Directional {}))
    point_lights := ((scene_lights objects).filter Light.is_point).take 4 }

/-- Well-formedness of a queue list: every queue kind has a bucket.  Holds for
`RenderQueueList::new` and is preserved by the whole pipeline, so the source
`get_mut(..).unwrap()` never aborts. -/
def RenderQueueList.wf (rq : RenderQueueList) : Prop :=
  ∀ k : RenderQueue, k ∈ rq.keys

/- Concrete inputs used by witness and counterexample theorems. -/

/-- The 4×4 identity matrix, written entrywise so it evaluates by `decide`. -/
def id4 : Mat4 :=
  Matrix.of fun i j => if i = j then 1 else 0

/-- An Opaque material with no textures. -/
def wmat : Material :=
  { id := 10, render_queue := .Opaque, program := 20, textures := [], states := {} }

/-- A Skybox material. -/
def wmat_sky : Material :=
  { id := 11, render_queue := .Skybox, program := 21, textures := [], states := {} }

/-- A geometry buffer with no bounding sphere (as a still-loading mesh
reports). -/
def wbuf_nobounds : MeshBuffer :=
  { id := 30, bounds := none }

/-- A geometry buffer with a unit bounding sphere. -/
def wbuf_unit : MeshBuffer :=
  { id := 31, bounds := some ⟨1⟩ }

/-- An Opaque surface lacking a bounding sphere. -/
def wsurf_nobounds : MeshSurface :=
  { buffer := wbuf_nobounds, material := wmat }

/-- An Opaque surface with a unit bounding sphere. -/
def wsurf_unit : MeshSurface :=
  { buffer := wbuf_unit, material := wmat }

/-- A Skybox surface. -/
def wsurf_sky : MeshSurface :=
  { buffer := wbuf_nobounds, material := wmat_sky }

/-- An identity transform whose world scale (2,2,2) differs from its local
scale (1,1,1), as happens for the child of a uniformly scaled parent. -/
def wtransform : Transform :=
  { global_matrix := id4
    local_scale := ⟨1, 1, 1⟩
    world_scale := ⟨2, 2, 2⟩
    global_translation := ⟨0, 0, 0⟩ }

/-- An active object carrying one Opaque surface that has no bounding
sphere. -/
def wobj_nobounds : GameObject :=
  { active := true, transform := wtransform, mesh := some ⟨[wsurf_nobounds]⟩ }

/-- An active object carrying one Opaque surface with a unit bounding
sphere. -/
def wobj_unit : GameObject :=
  { active := true, transform := wtransform, mesh := some ⟨[wsurf_unit]⟩ }

/-- An active object carrying one Skybox surface. -/
def wobj_sky : GameObject :=
  { active := true, transform := wtransform, mesh := some ⟨[wsurf_sky]⟩ }

/-- A frustum with no planes: every sphere passes the culling test. -/
def wfrustum_empty : Frustum := ⟨[]⟩

/-- A frustum with a single plane at signed distance −3/2 from the origin: a
sphere of radius 1 at the origin is entirely outside it, a sphere of radius 2
is not. -/
def wfrustum_plane : Frustum := ⟨[{ normal := ⟨1, 0, 0⟩, d := -(3 / 2) }]⟩

/-- A camera at the origin. -/
def wcam : Camera := { v := id4, eye := ⟨0, 0, 0⟩ }

/-- A draw command for the Opaque no-texture material with identity model
matrix. -/
def wcmd : RenderCommand := { surface := wsurf_unit, model_m := 1, cam_distance := 0 }

/-- The same draw command with the (singular) zero model matrix. -/
def wcmd_zero : RenderCommand := { surface := wsurf_unit, model_m := 0, cam_distance := 0 }

/-- A context holding a resolved main light, as `prepare_ctx` leaves it. -/
def wctx : EngineContext := { main_light := some (.Directional {}) }

/-- The context after `setup_material` freshly binds `wmat` starting from
`wctx`. -/
def wctx_bound : EngineContext :=
  { prog := some 20
    last_material_bound := some 10
    last_light_bound := some 20
    main_light := some (.Directional {})
    switch_prog := 1 }

/-- The context after the geometry buffer of `wcmd` is additionally bound. -/
def wctx_buffer : EngineContext :=
  { wctx_bound with last_buffer_bound := some 31, switch_mesh := 1 }

/-- An environment where every resource is alive and every bind reports
NotReady. -/
def env_notready : Env :=
  { material_alive := fun _ => true
    prog_alive := fun _ => true
    tex_alive := fun _ => true
    buffer_alive := fun _ => true
    prog_bind := fun _ => .error .NotReady
    tex_bind := fun _ => .error .NotReady
    buffer_bind := fun _ => .error .NotReady }

/-- An environment where the program bind hard-fails. -/
def env_hard : Env :=
  { env_notready with prog_bind := fun _ => .error (.HardFailure "bad shader") }

/-- An environment where every bind succeeds. -/
def env_ok : Env :=
  { env_notready with
    prog_bind := fun _ => .ok ()
    tex_bind := fun _ => .ok ()
    buffer_bind := fun _ => .ok () }

/-- An environment where only the geometry-buffer bind reports NotReady. -/
def env_buf_notready : Env :=
  { env_ok with buffer_bind := fun _ => .error .NotReady }

/-- An environment where the geometry-buffer bind hard-fails. -/
def env_buf_hard : Env :=
  { env_ok with buffer_bind := fun _ => .error (.HardFailure "bad mesh") }

/-- A draw command at squared camera distance 5. -/
def wcmd_far : RenderCommand := { surface := wsurf_unit, model_m := 1, cam_distance := 5 }

/-- A draw command at squared camera distance 3. -/
def wcmd_near : RenderCommand := { surface := wsurf_unit, model_m := 1, cam_distance := 3 }

/-- A bucket already sorted into descending camera distance. -/
def wq_desc : RenderQueueState := { commands := [wcmd_far, wcmd_near] }

/-- A bucket already sorted into ascending camera distance. -/
def wq_asc : RenderQueueState := { commands := [wcmd_near, wcmd_far] }

/-- A context that already has `wmat` recorded as the last bound material. -/
def wctx_shortcut : EngineContext := { last_material_bound := some 10 }

/-! ## Helper lemmas -/

theorem keys_map_modify (k : RenderQueue) (f : RenderQueueState → RenderQueueState) :
    ∀ l : List (RenderQueue × RenderQueueState),
      (l.map fun e => if e.1 = k then (e.1, f e.2) else e).map Prod.fst = l.map Prod.fst
  | [] => rfl
  | e :: rest => by
    by_cases h : e.1 = k <;> simp [h, keys_map_modify k f rest]

theorem keys_modify (rq : RenderQueueList) (k : RenderQueue)
    (f : RenderQueueState → RenderQueueState) : (rq.modify k f).keys = rq.keys :=
  keys_map_modify k f rq.entries

theorem find?_map_modify_ne (k k₁ : RenderQueue) (h : k₁ ≠ k)
    (f : RenderQueueState → RenderQueueState) :
    ∀ l : List (RenderQueue × RenderQueueState),
      (l.map fun e => if e.1 = k then (e.1, f e.2) else e).find? (fun e => e.1 == k₁) =
        l.find? (fun e => e.1 == k₁)
  | [] => rfl
  | e :: rest => by
    by_cases hek : e.1 = k₁
    · have hne : e.1 ≠ k := fun hh => h (hek.symm.trans hh)
      rw [List.map_cons, if_neg hne,
        List.find?_cons_of_pos _ (by simp [hek]),
        List.find?_cons_of_pos _ (by simp [hek])]
    · by_cases hk : e.1 = k
      · rw [List.map_cons, if_pos hk,
          List.find?_cons_of_neg _ (by simp [hek]),
          List.find?_cons_of_neg _ (by simp [hek]),
          find?_map_modify_ne k k₁ h f rest]
      · rw [List.map_cons, if_neg hk,
          List.find?_cons_of_neg _ (by simp [hek]),
          List.find?_cons_of_neg _ (by simp [hek]),
          find?_map_modify_ne k k₁ h f rest]

theorem get_modify_ne (rq : RenderQueueList) (k k₁ : RenderQueue) (h : k₁ ≠ k)
    (f : RenderQueueState → RenderQueueState) :
    (rq.modify k f).get k₁ = rq.get k₁ := by
  unfold RenderQueueList.get RenderQueueList.modify
  rw [find?_map_modify_ne k k₁ h f rq.entries]

theorem find?_map_modify_self (k : RenderQueue) (f : RenderQueueState → RenderQueueState) :
    ∀ l : List (RenderQueue × RenderQueueState),
      (l.map fun e => if e.1 = k then (e.1, f e.2) else e).find? (fun e => e.1 == k) =
        (l.find? (fun e => e.1 == k)).map (fun e => (e.1, f e.2))
  | [] => rfl
  | e :: rest => by
    by_cases hek : e.1 = k
    · rw [List.map_cons, if_pos hek,
        List.find?_cons_of_pos _ (by simp [hek]),
        List.find?_cons_of_pos _ (by simp [hek])]
      rfl
    · rw [List.map_cons, if_neg hek,
        List.find?_cons_of_neg _ (by simp [hek]),
        List.find?_cons_of_neg _ (by simp [hek]),
        find?_map_modify_self k f rest]

theorem get_modify_self (rq : RenderQueueList) (k : RenderQueue)
    (f : RenderQueueState → RenderQueueState) (h : k ∈ rq.keys) :
    (rq.modify k f).get k = f (rq.get k) := by
  unfold RenderQueueList.get RenderQueueList.modify
  rw [find?_map_modify_self k f rq.entries]
  cases hfind : rq.entries.find? (fun e => e.1 == k) with
  | none =>
    exfalso
    rw [List.find?_eq_none] at hfind
    obtain ⟨e, he, hek⟩ := List.mem_map.mp h
    exact absurd (by simp [hek]) (hfind e he)
  | some e => simp

theorem keys_gather_step (object : GameObject) (cam : Vec3) (frustum : Frustum)
    (rq : RenderQueueList) (s : MeshSurface) :
    (gather_step object cam frustum rq s).keys = rq.keys := by
  unfold gather_step
  split
  · exact keys_modify ..
  · rfl

theorem keys_foldl_gather_step (object : GameObject) (cam : Vec3) (frustum : Frustum) :
    ∀ (surfaces : List MeshSurface) (rq : RenderQueueList),
      (surfaces.foldl (gather_step object cam frustum) rq).keys = rq.keys
  | [], _ => rfl
  | s :: rest, rq => by
    rw [List.foldl_cons, keys_foldl_gather_step object cam frustum rest, keys_gather_step]

theorem keys_gather (object : GameObject) (cam : Vec3) (frustum : Frustum)
    (rq : RenderQueueList) :
    (gather_render_commands object cam frustum rq).keys = rq.keys := by
  unfold gather_render_commands
  split
  · rfl
  · split
    · rfl
    · exact keys_foldl_gather_step ..

theorem keys_foldl_objects (cam : Vec3) (frustum : Frustum) :
    ∀ (objects : List (Option GameObject)) (rq : RenderQueueList),
      (objects.foldl
        (fun q o =>
          match o with
          | none => q
          | some object => gather_render_commands object cam frustum q) rq).keys = rq.keys
  | [], _ => rfl
  | o :: rest, rq => by
    rw [List.foldl_cons, keys_foldl_objects cam frustum rest]
    cases o with
    | none => rfl
    | some object => exact keys_gather ..

theorem keys_new : RenderQueueList.new.keys =
    [RenderQueue.Opaque, .Skybox, .Transparent, .UI] := by decide

theorem keys_gather_all (objects : List (Option GameObject)) (cam : Vec3) (frustum : Frustum) :
    (gather_all objects cam frustum).keys =
      [RenderQueue.Opaque, .Skybox, .Transparent, .UI] := by
  unfold gather_all
  rw [keys_foldl_objects, keys_new]

theorem keys_sort_queues (rq : RenderQueueList) : (sort_queues rq).keys = rq.keys := by
  unfold sort_queues
  rw [keys_modify, keys_modify]

/-! ## C4 -/

/-- C4: for every frame the queue buckets are submitted in exactly the fixed
order Opaque, Skybox, Transparent, UI — the submission loop iterates the
`BTreeMap` in key order, and that key sequence is independent of which objects
were gathered and of the sort step. -/
theorem c4_submission_order (objects : List (Option GameObject)) (camera : Camera)
    (frustum : Frustum) :
    (render_pass_queues objects camera frustum).keys =
      [RenderQueue.Opaque, .Skybox, .Transparent, .UI] := by
  unfold render_pass_queues
  rw [keys_sort_queues, keys_gather_all]

/-! ## C9 -/

/-- C9: `RenderQueueList::new` produces exactly the four buckets Opaque,
Skybox, Transparent, UI; Skybox and Transparent disable depth writes, Skybox
additionally sets the depth test to less-or-equal, and Opaque and UI carry the
default (empty) state block. -/
theorem c9_new_buckets :
    RenderQueueList.new.keys = [RenderQueue.Opaque, .Skybox, .Transparent, .UI]
    ∧ RenderQueueList.new.get .Opaque = { states := {}, commands := [] }
    ∧ RenderQueueList.new.get .Skybox =
        { states := { depth_write := some false, depth_test := some .LessEqual }, commands := [] }
    ∧ RenderQueueList.new.get .Transparent =
        { states := { depth_write := some false, depth_test := none }, commands := [] }
    ∧ RenderQueueList.new.get .UI = { states := {}, commands := [] } := by
  decide

theorem wf_new : RenderQueueList.new.wf := by
  intro k
  cases k <;> decide

theorem foldl_gather_step_get (object : GameObject) (cam : Vec3) (frustum : Frustum) :
    ∀ (surfaces : List MeshSurface) (rq : RenderQueueList), rq.wf → ∀ k : RenderQueue,
      (surfaces.foldl (gather_step object cam frustum) rq).get k =
        { states := (rq.get k).states
          commands := (rq.get k).commands ++
            ((surfaces.filter fun s =>
                surface_emitted object frustum s && s.material.render_queue == k).map
              (make_command cam object)) }
  | [], rq, _, k => by simp
  | s :: rest, rq, hwf, k => by
    rw [List.foldl_cons,
      foldl_gather_step_get object cam frustum rest _
        (fun q => by rw [keys_gather_step]; exact hwf q) k]
    cases hemit : surface_emitted object frustum s with
    | false =>
      simp only [gather_step, hemit, Bool.false_eq_true, if_false, List.filter_cons,
        Bool.false_and]
    | true =>
      by_cases hqk : s.material.render_queue = k
      · subst hqk
        simp only [gather_step, hemit, if_true]
        rw [get_modify_self _ _ _ (hwf _)]
        simp [List.filter_cons, hemit]
      · have hbk : (s.material.render_queue == k) = false := by simp [hqk]
        simp only [gather_step, hemit, if_true]
        rw [get_modify_ne _ _ _ (fun hh => hqk hh.symm)]
        simp [List.filter_cons, hemit, hbk]

/-! ## C1 -/

/-- C1 (amended): for every gathered surface of an active object with a mesh,
the commands appended to each bucket are exactly the surfaces passing the
culling decision, in order; and that decision holds iff the material queue is
Skybox or UI, or the surface has a bounding sphere that is not entirely
outside the frustum.  (A surface with NO bounding sphere outside those queues
is never emitted — the source skips it — which is the amendment: the claim
said such surfaces are always emitted.) -/
theorem c1_emission (object : GameObject) (cam : Vec3) (frustum : Frustum)
    (rq : RenderQueueList) (mesh : Mesh) (hwf : rq.wf)
    (hactive : object.active = true) (hmesh : object.mesh = some mesh) :
    (∀ k : RenderQueue,
      (gather_render_commands object cam frustum rq).get k =
        { states := (rq.get k).states
          commands := (rq.get k).commands ++
            ((mesh.surfaces.filter fun s =>
                surface_emitted object frustum s && s.material.render_queue == k).map
              (make_command cam object)) })
    ∧ (∀ s : MeshSurface,
        surface_emitted object frustum s = true ↔
          (s.material.render_queue = .Skybox ∨ s.material.render_queue = .UI) ∨
          ∃ b, s.buffer.bounds = some b ∧
            frustum.collide_sphere (transform_point (compute_model_m object) ⟨0, 0, 0⟩)
              (culling_radius object b) = true) := by
  constructor
  · intro k
    unfold gather_render_commands
    simp only [hactive, hmesh, Bool.not_true, Bool.false_eq_true, if_false]
    exact foldl_gather_step_get object cam frustum mesh.surfaces rq hwf k
  · intro s
    unfold surface_emitted
    cases hq : s.material.render_queue
    case Skybox => simp [hq]
    case UI => simp [hq]
    case Opaque =>
      cases hb : s.buffer.bounds with
      | none => simp [hq, hb]
      | some b => simp [hq, hb]
    case Transparent =>
      cases hb : s.buffer.bounds with
      | none => simp [hq, hb]
      | some b => simp [hq, hb]

/-- Witness for C1: in a concrete scene, a Skybox surface without a bounding
sphere is emitted into the Skybox bucket. -/
theorem c1_emission_witness :
    ((gather_render_commands wobj_sky ⟨0, 0, 0⟩ wfrustum_empty RenderQueueList.new).get
        .Skybox).commands =
      (RenderQueueList.new.get .Skybox).commands ++
        [make_command ⟨0, 0, 0⟩ wobj_sky wsurf_sky] := by
  have h := (c1_emission wobj_sky ⟨0, 0, 0⟩ wfrustum_empty RenderQueueList.new ⟨[wsurf_sky]⟩
    wf_new rfl rfl).1 RenderQueue.Skybox
  rw [h]
  rfl

/-- Counterexample to C1 as stated: an active object whose single Opaque
surface lacks a bounding sphere produces no draw command at all (the source
runs `continue` when `bounds.is_none()`), though the claim says surfaces
without a bounding sphere are always emitted. -/
theorem c1_counterexample :
    wobj_nobounds.active = true
    ∧ wobj_nobounds.mesh = some ⟨[wsurf_nobounds]⟩
    ∧ wsurf_nobounds.buffer.bounds = none
    ∧ wsurf_nobounds.material.render_queue = RenderQueue.Opaque
    ∧ (gather_render_commands wobj_nobounds ⟨0, 0, 0⟩ wfrustum_empty
        RenderQueueList.new).surface_count = 0 := by
  decide

/-! ## C2 -/

/-- C2 (amended): for every culled surface (bounding sphere present, queue
neither Skybox nor UI), the emission decision is the frustum test applied to
the transformed origin and the world radius `b.r` times the maximum per-axis
component of the LOCAL scale of the object — not the world scale. -/
theorem c2_culling_radius (object : GameObject) (frustum : Frustum) (s : MeshSurface)
    (b : Bounds) (hb : s.buffer.bounds = some b)
    (hsky : s.material.render_queue ≠ .Skybox) (hui : s.material.render_queue ≠ .UI) :
    surface_emitted object frustum s =
      frustum.collide_sphere (transform_point (compute_model_m object) ⟨0, 0, 0⟩)
        (b.r * get_max_scale object.transform.local_scale) := by
  unfold surface_emitted culling_radius
  cases hq : s.material.render_queue
  case Skybox => exact absurd hq hsky
  case UI => exact absurd hq hui
  case Opaque => simp [hq, hb, culling_radius]
  case Transparent => simp [hq, hb, culling_radius]

/-- Witness for C2 at a concrete culled surface. -/
theorem c2_culling_radius_witness :
    surface_emitted wobj_unit wfrustum_plane wsurf_unit =
      wfrustum_plane.collide_sphere (transform_point (compute_model_m wobj_unit) ⟨0, 0, 0⟩)
        (Bounds.r ⟨1⟩ * get_max_scale wobj_unit.transform.local_scale) :=
  c2_culling_radius wobj_unit wfrustum_plane wsurf_unit ⟨1⟩ rfl (by decide) (by decide)

/-- Counterexample to C2 as stated: for an object whose world scale (2,2,2)
differs from its local scale (1,1,1), the radius handed to the frustum test is
1 (local), not 2 (world), and the culling decision visibly differs: the
surface is culled although a sphere of the world-scale radius would pass. -/
theorem c2_counterexample :
    wsurf_unit.buffer.bounds = some ⟨1⟩
    ∧ wsurf_unit.material.render_queue = RenderQueue.Opaque
    ∧ culling_radius wobj_unit ⟨1⟩ = 1
    ∧ Bounds.r ⟨1⟩ * get_max_scale wobj_unit.transform.world_scale = 2
    ∧ culling_radius wobj_unit ⟨1⟩ ≠ Bounds.r ⟨1⟩ * get_max_scale wobj_unit.transform.world_scale
    ∧ surface_emitted wobj_unit wfrustum_plane wsurf_unit = false
    ∧ wfrustum_plane.collide_sphere
        (transform_point (compute_model_m wobj_unit) ⟨0, 0, 0⟩)
        (Bounds.r ⟨1⟩ * get_max_scale wobj_unit.transform.world_scale) = true := by
  refine ⟨rfl, rfl, ?_, ?_, ?_, ?_, ?_⟩
  · norm_num [culling_radius, get_max_scale, wobj_unit, wtransform]
  · norm_num [get_max_scale, wobj_unit, wtransform]
  · norm_num [culling_radius, get_max_scale, wobj_unit, wtransform]
  · have h03 : ((0 : Fin 4) = (3 : Fin 4)) ↔ False := by decide
    norm_num [surface_emitted, wsurf_unit, wmat, wbuf_unit, wobj_unit, wtransform,
      culling_radius, get_max_scale, Frustum.collide_sphere, wfrustum_plane,
      transform_point, compute_model_m, id4, Vec3.dot, Matrix.of_apply, h03]
  · have h03 : ((0 : Fin 4) = (3 : Fin 4)) ↔ False := by decide
    norm_num [Frustum.collide_sphere, wfrustum_plane, transform_point, compute_model_m,
      wobj_unit, wtransform, id4, Vec3.dot, get_max_scale, Matrix.of_apply, h03]

theorem cam_le_trans (a b c : RenderCommand) (hab : cam_le a b = true)
    (hbc : cam_le b c = true) : cam_le a c = true := by
  simp only [cam_le, decide_eq_true_eq] at *
  exact le_trans hab hbc

theorem cam_le_total (a b : RenderCommand) : (cam_le a b || cam_le b a) = true := by
  simp only [cam_le, Bool.or_eq_true, decide_eq_true_eq]
  exact le_total _ _

theorem cam_ge_trans (a b c : RenderCommand) (hab : cam_ge a b = true)
    (hbc : cam_ge b c = true) : cam_ge a c = true := by
  simp only [cam_ge, decide_eq_true_eq] at *
  exact le_trans hbc hab

theorem cam_ge_total (a b : RenderCommand) : (cam_ge a b || cam_ge b a) = true := by
  simp only [cam_ge, Bool.or_eq_true, decide_eq_true_eq]
  exact le_total _ _

theorem sorted_sort_by_cam_distance (q : RenderQueueState) :
    List.Chain' (fun a b : RenderCommand => b.cam_distance ≤ a.cam_distance)
      q.sort_by_cam_distance.commands := by
  have hp := List.sorted_mergeSort cam_ge_trans cam_ge_total q.commands
  refine List.Pairwise.chain' (hp.imp ?_)
  intro a b h
  simpa [cam_ge] using h

theorem sorted_sort_by_cam_distance_reverse (q : RenderQueueState) :
    List.Chain' (fun a b : RenderCommand => a.cam_distance ≤ b.cam_distance)
      q.sort_by_cam_distance_reverse.commands := by
  have hp := List.sorted_mergeSort cam_le_trans cam_le_total q.commands
  refine List.Pairwise.chain' (hp.imp ?_)
  intro a b h
  simpa [cam_le] using h

theorem chain'_pairwise_ge {l : List RenderCommand}
    (h : List.Chain' (fun a b : RenderCommand => b.cam_distance ≤ a.cam_distance) l) :
    List.Pairwise (fun a b => cam_ge a b = true) l := by
  haveI : IsTrans RenderCommand (fun a b : RenderCommand => b.cam_distance ≤ a.cam_distance) :=
    ⟨fun _ _ _ hab hbc => le_trans hbc hab⟩
  exact (List.chain'_iff_pairwise.mp h).imp (fun hab => by simpa [cam_ge] using hab)

theorem chain'_pairwise_le {l : List RenderCommand}
    (h : List.Chain' (fun a b : RenderCommand => a.cam_distance ≤ b.cam_distance) l) :
    List.Pairwise (fun a b => cam_le a b = true) l := by
  haveI : IsTrans RenderCommand (fun a b : RenderCommand => a.cam_distance ≤ b.cam_distance) :=
    ⟨fun _ _ _ hab hbc => le_trans hab hbc⟩
  exact (List.chain'_iff_pairwise.mp h).imp (fun hab => by simpa [cam_le] using hab)

theorem wf_gather_all (objects : List (Option GameObject)) (cam : Vec3) (frustum : Frustum) :
    (gather_all objects cam frustum).wf := by
  intro k
  rw [keys_gather_all]
  cases k <;> decide

/-! ## C3 -/

/-- C3: after the sort step of a frame, adjacent commands of the Opaque bucket
have non-decreasing squared camera distance (front-to-back), adjacent commands
of the Transparent bucket have non-increasing squared camera distance
(back-to-front), and the Skybox and UI buckets are exactly as gathered. -/
theorem c3_sort_order (objects : List (Option GameObject)) (camera : Camera)
    (frustum : Frustum) :
    List.Chain' (fun a b : RenderCommand => a.cam_distance ≤ b.cam_distance)
      ((render_pass_queues objects camera frustum).get .Opaque).commands
    ∧ List.Chain' (fun a b : RenderCommand => b.cam_distance ≤ a.cam_distance)
      ((render_pass_queues objects camera frustum).get .Transparent).commands
    ∧ (render_pass_queues objects camera frustum).get .Skybox =
        (gather_all objects camera.eye frustum).get .Skybox
    ∧ (render_pass_queues objects camera frustum).get .UI =
        (gather_all objects camera.eye frustum).get .UI := by
  have hwf := wf_gather_all objects camera.eye frustum
  unfold render_pass_queues sort_queues
  refine ⟨?_, ?_, ?_, ?_⟩
  · rw [get_modify_ne _ _ _ (by decide), get_modify_self _ _ _ (hwf _)]
    exact sorted_sort_by_cam_distance_reverse _
  · rw [get_modify_self _ _ _ (by rw [keys_modify]; exact hwf _)]
    exact sorted_sort_by_cam_distance _
  · rw [get_modify_ne _ _ _ (by decide), get_modify_ne _ _ _ (by decide)]
  · rw [get_modify_ne _ _ _ (by decide), get_modify_ne _ _ _ (by decide)]

/-! ## C8 -/

/-- C8: the sort of each sortable bucket is idempotent — a bucket whose command
list is already sorted (descending for `sort_by_cam_distance`, ascending for
`sort_by_cam_distance_reverse`) is returned unchanged, and in particular
sorting twice equals sorting once. -/
theorem c8_sort_idempotent (q : RenderQueueState) :
    (List.Chain' (fun a b : RenderCommand => b.cam_distance ≤ a.cam_distance) q.commands →
      q.sort_by_cam_distance = q)
    ∧ (List.Chain' (fun a b : RenderCommand => a.cam_distance ≤ b.cam_distance) q.commands →
      q.sort_by_cam_distance_reverse = q)
    ∧ q.sort_by_cam_distance.sort_by_cam_distance = q.sort_by_cam_distance
    ∧ q.sort_by_cam_distance_reverse.sort_by_cam_distance_reverse =
        q.sort_by_cam_distance_reverse := by
  have hdesc : ∀ q₁ : RenderQueueState,
      List.Chain' (fun a b : RenderCommand => b.cam_distance ≤ a.cam_distance) q₁.commands →
        q₁.sort_by_cam_distance = q₁ := by
    intro q₁ h
    unfold RenderQueueState.sort_by_cam_distance
    rw [List.mergeSort_of_sorted (chain'_pairwise_ge h)]
  have hasc : ∀ q₁ : RenderQueueState,
      List.Chain' (fun a b : RenderCommand => a.cam_distance ≤ b.cam_distance) q₁.commands →
        q₁.sort_by_cam_distance_reverse = q₁ := by
    intro q₁ h
    unfold RenderQueueState.sort_by_cam_distance_reverse
    rw [List.mergeSort_of_sorted (chain'_pairwise_le h)]
  exact ⟨hdesc q, hasc q,
    hdesc _ (sorted_sort_by_cam_distance q), hasc _ (sorted_sort_by_cam_distance_reverse q)⟩

/-- Witness for C8 on concrete already-sorted buckets. -/
theorem c8_sort_idempotent_witness :
    wq_desc.sort_by_cam_distance = wq_desc
    ∧ wq_asc.sort_by_cam_distance_reverse = wq_asc :=
  ⟨(c8_sort_idempotent wq_desc).1
      (by norm_num [wq_desc, wcmd_far, wcmd_near, List.chain'_cons]),
    (c8_sort_idempotent wq_asc).2.1
      (by norm_num [wq_asc, wcmd_far, wcmd_near, List.chain'_cons])⟩

/-! ## C6 -/

theorem filter_head?_eq_find? {α : Type} (p : α → Bool) :
    ∀ l : List α, (l.filter p).head? = l.find? p
  | [] => rfl
  | a :: rest => by
    by_cases h : p a
    · rw [List.filter_cons_of_pos h, List.find?_cons_of_pos _ h]
      rfl
    · rw [List.filter_cons_of_neg (by simpa using h), List.find?_cons_of_neg _ (by simpa using h),
        filter_head?_eq_find? p rest]

/-- C6: light resolution selects as main light the first directional light in
scene-iteration order, synthesizing the default directional light when none
exists (so a directional main light is always present), and selects as point
lights exactly the first 4 point lights in scene-iteration order (hence at
most 4). -/
theorem c6_light_selection (objects : List (Option GameObject)) (ctx : EngineContext) :
    (prepare_ctx objects ctx).main_light =
      some (((scene_lights objects).find? Light.is_directional).getD (Light.Directional {}))
    ∧ (∃ l, (prepare_ctx objects ctx).main_light = some l ∧ l.is_directional = true)
    ∧ (prepare_ctx objects ctx).point_lights =
        ((scene_lights objects).filter Light.is_point).take 4
    ∧ (prepare_ctx objects ctx).point_lights.length ≤ 4 := by
  have hmain : (prepare_ctx objects ctx).main_light =
      some (((scene_lights objects).find? Light.is_directional).getD (Light.Directional {})) := by
    unfold prepare_ctx find_main_light
    rw [filter_head?_eq_find?]
  refine ⟨hmain, ?_, rfl, ?_⟩
  · cases hf : (scene_lights objects).find? Light.is_directional with
    | none => exact ⟨Light.Directional {}, by rw [hmain, hf]; rfl, rfl⟩
    | some l => exact ⟨l, by rw [hmain, hf]; rfl, List.find?_some hf⟩
  · show (((scene_lights objects).filter Light.is_point).take 4).length ≤ 4
    exact List.length_take_le 4 _

/-! ## C7 -/

/-- C7: when the material of a draw is reference-identical to the last bound
material and that material is still alive, `setup_material` skips all binding
work: the context is returned unchanged (in particular no switch counter is
incremented) and the device-call trace is empty (no program bind, no texture
bind, no light upload). -/
theorem c7_material_short_circuit (env : Env) (ctx : EngineContext) (material : Material)
    (last : Nat) (hlast : ctx.last_material_bound = some last)
    (halive : env.material_alive last = true) (hid : last = material.id) :
    setup_material env ctx material = .ok (.ok (), ctx, []) := by
  unfold setup_material
  rw [hlast]
  subst hid
  simp [halive]

/-- Witness for C7: a concrete repeated material is rebound with no work. -/
theorem c7_material_short_circuit_witness :
    setup_material env_ok wctx_shortcut wmat = .ok (.ok (), wctx_shortcut, []) :=
  c7_material_short_circuit env_ok wctx_shortcut wmat 10 rfl rfl rfl

/-! ## C5 -/

/-- C5: during submission, a draw whose material bind or geometry-buffer bind
reports NotReady is skipped while the remaining commands of the bucket are
still processed (the result is exactly the processing of the rest, with only a
state-commit and the partial bind trace prepended, and no error is introduced);
any other binding error aborts the frame with the corresponding fatal error. -/
theorem c5_error_handling (env : Env) (camera : Camera) (material : Option Material)
    (qstates : MaterialState) (ctx : EngineContext) (cmd : RenderCommand)
    (rest : List RenderCommand) :
    (∀ ctx₁ tr₁,
      setup_material env ctx (resolve_material material cmd) =
          .ok (.error .NotReady, ctx₁, tr₁) →
        render_commands_go env camera material qstates ctx (cmd :: rest) =
          (render_commands_go env camera material qstates ctx₁ rest).map
            (fun r => (r.1,
              (commit_event qstates (resolve_material material cmd) :: tr₁) ++ r.2)))
    ∧ (∀ msg ctx₁ tr₁,
      setup_material env ctx (resolve_material material cmd) =
          .ok (.error (.HardFailure msg), ctx₁, tr₁) →
        render_commands_go env camera material qstates ctx (cmd :: rest) =
          .error "Failed to load material")
    ∧ (∀ ctx₁ tr₁ prog ctx₂ tr₂,
      setup_material env ctx (resolve_material material cmd) = .ok (.ok (), ctx₁, tr₁) →
      ctx₁.prog = some prog → env.prog_alive prog = true →
      prepare_cache_buffer env ctx₁ cmd.surface.buffer.id (buffer_bind_closure env cmd) =
          (.error .NotReady, ctx₂, tr₂) →
        render_commands_go env camera material qstates ctx (cmd :: rest) =
          (render_commands_go env camera material qstates ctx₂ rest).map
            (fun r => (r.1,
              (commit_event qstates (resolve_material material cmd) :: (tr₁ ++ tr₂)) ++ r.2)))
    ∧ (∀ ctx₁ tr₁ prog msg ctx₂ tr₂,
      setup_material env ctx (resolve_material material cmd) = .ok (.ok (), ctx₁, tr₁) →
      ctx₁.prog = some prog → env.prog_alive prog = true →
      prepare_cache_buffer env ctx₁ cmd.surface.buffer.id (buffer_bind_closure env cmd) =
          (.error (.HardFailure msg), ctx₂, tr₂) →
        render_commands_go env camera material qstates ctx (cmd :: rest) =
          .error "Failed to load mesh") := by
  refine ⟨?_, ?_, ?_, ?_⟩
  · intro ctx₁ tr₁ hsm
    simp only [render_commands_go, hsm]
  · intro msg ctx₁ tr₁ hsm
    simp only [render_commands_go, hsm]
  · intro ctx₁ tr₁ prog ctx₂ tr₂ hsm hprog halive hbuf
    simp only [render_commands_go, hsm, hprog, halive, hbuf, Bool.not_true,
      Bool.false_eq_true, if_false]
  · intro ctx₁ tr₁ prog msg ctx₂ tr₂ hsm hprog halive hbuf
    simp only [render_commands_go, hsm, hprog, halive, hbuf, Bool.not_true,
      Bool.false_eq_true, if_false]

/-- Witness for C5 on concrete environments: a NotReady program bind skips the
draw but continues, a hard program-bind failure aborts with the material
panic, a NotReady buffer bind skips, a hard buffer-bind failure aborts with
the mesh panic. -/
theorem c5_error_handling_witness :
    (render_commands_go env_notready wcam none {} wctx [wcmd] =
      (render_commands_go env_notready wcam none {} wctx []).map
        (fun r => (r.1,
          (commit_event {} (resolve_material none wcmd) :: []) ++ r.2)))
    ∧ (render_commands_go env_hard wcam none {} wctx [wcmd] =
        .error "Failed to load material")
    ∧ (render_commands_go env_buf_notready wcam none {} wctx [wcmd] =
      (render_commands_go env_buf_notready wcam none {} wctx_bound []).map
        (fun r => (r.1,
          (commit_event {} (resolve_material none wcmd) ::
            ([.ProgBind 20, .LightsBind 20] ++ [])) ++ r.2)))
    ∧ (render_commands_go env_buf_hard wcam none {} wctx [wcmd] =
        .error "Failed to load mesh") :=
  ⟨(c5_error_handling env_notready wcam none {} wctx wcmd []).1 wctx [] rfl,
    (c5_error_handling env_hard wcam none {} wctx wcmd []).2.1 "bad shader" wctx [] rfl,
    (c5_error_handling env_buf_notready wcam none {} wctx wcmd []).2.2.1 wctx_bound
      [.ProgBind 20, .LightsBind 20] 20 wctx_bound [] rfl rfl rfl rfl,
    (c5_error_handling env_buf_hard wcam none {} wctx wcmd []).2.2.2 wctx_bound
      [.ProgBind 20, .LightsBind 20] 20 "bad mesh" wctx_bound [] rfl rfl rfl rfl⟩

/-! ## C10 -/

/-- C10: a submitted draw that passes both readiness checks inverts its model
matrix with an unconditional unwrap — a singular model matrix aborts the whole
frame instead of skipping the draw, while an invertible one proceeds to the
draw call; submission is total only under the precondition that every emitted
model matrix is invertible. -/
theorem c10_model_inverse_unwrap (env : Env) (camera : Camera) (material : Option Material)
    (qstates : MaterialState) (ctx : EngineContext) (cmd : RenderCommand)
    (rest : List RenderCommand) :
    (∀ ctx₁ tr₁ prog ctx₂ tr₂,
      setup_material env ctx (resolve_material material cmd) = .ok (.ok (), ctx₁, tr₁) →
      ctx₁.prog = some prog → env.prog_alive prog = true →
      prepare_cache_buffer env ctx₁ cmd.surface.buffer.id (buffer_bind_closure env cmd) =
          (.ok (), ctx₂, tr₂) →
      ctx₂.prog = some prog →
      cmd.model_m.det = 0 →
        render_commands_go env camera material qstates ctx (cmd :: rest) =
          .error "called Option::unwrap() on a None value: model matrix not invertible")
    ∧ (∀ ctx₁ tr₁ prog ctx₂ tr₂,
      setup_material env ctx (resolve_material material cmd) = .ok (.ok (), ctx₁, tr₁) →
      ctx₁.prog = some prog → env.prog_alive prog = true →
      prepare_cache_buffer env ctx₁ cmd.surface.buffer.id (buffer_bind_closure env cmd) =
          (.ok (), ctx₂, tr₂) →
      ctx₂.prog = some prog →
      cmd.model_m.det ≠ 0 →
        render_commands_go env camera material qstates ctx (cmd :: rest) =
          (render_commands_go env camera material qstates ctx₂ rest).map
            (fun r => (r.1,
              (commit_event qstates (resolve_material material cmd) ::
                (tr₁ ++ tr₂ ++ [.CameraUniforms prog] ++
                  [.Draw cmd.surface.buffer.id, .BufferUnbind cmd.surface.buffer.id])) ++ r.2))) := by
  constructor
  · intro ctx₁ tr₁ prog ctx₂ tr₂ hsm hprog halive hbuf hprog₂ hdet
    simp only [render_commands_go, hsm, hprog, halive, hbuf, Bool.not_true,
      Bool.false_eq_true, if_false, setup_camera, hprog₂, try_inverse, hdet, if_true]
  · intro ctx₁ tr₁ prog ctx₂ tr₂ hsm hprog halive hbuf hprog₂ hdet
    simp only [render_commands_go, hsm, hprog, halive, hbuf, Bool.not_true,
      Bool.false_eq_true, if_false, setup_camera, hprog₂, try_inverse, hdet, if_true]

/-- Witness for C10: with every bind succeeding, a command carrying the
singular zero model matrix aborts the frame, while the same pipeline with the
identity model matrix issues the draw. -/
theorem c10_model_inverse_unwrap_witness :
    (render_commands_go env_ok wcam none {} wctx [wcmd_zero] =
      .error "called Option::unwrap() on a None value: model matrix not invertible")
    ∧ (render_commands_go env_ok wcam none {} wctx [wcmd] =
      (render_commands_go env_ok wcam none {} wctx_buffer []).map
        (fun r => (r.1,
          (commit_event {} (resolve_material none wcmd) ::
            ([.ProgBind 20, .LightsBind 20] ++ [.BufferBind 31] ++ [.CameraUniforms 20] ++
              [.Draw 31, .BufferUnbind 31])) ++ r.2))) :=
  ⟨(c10_model_inverse_unwrap env_ok wcam none {} wctx wcmd_zero []).1 wctx_bound
      [.ProgBind 20, .LightsBind 20] 20 wctx_buffer [.BufferBind 31]
      rfl rfl rfl rfl rfl (by simp [wcmd_zero, Matrix.det_zero]),
    (c10_model_inverse_unwrap env_ok wcam none {} wctx wcmd []).2 wctx_bound
      [.ProgBind 20, .LightsBind 20] 20 wctx_buffer [.BufferBind 31]
      rfl rfl rfl rfl rfl (by simp [wcmd, Matrix.det_one])⟩

end Engine
